import Mathlib

/-!
Shallow embedding of the MakoCon protocol front end.

Source files embedded here:
- `src/mako/rust-lib/src/lib.rs`: the async connection driver
  (`handle_client_async`), the command parser (`parse_resp3_command`),
  the reply encoders (`format_response`, `format_exec_response_from_batch`)
  and the FFI bridge wrapper (`call_cpp_batch_operation`).
- `src/makocon/src/main.rs`: the blocking-server command handler
  (`kv_handler`) over an in-process `HashMap` database.

Modelling conventions:
- Rust `String` / byte buffers are Lean `String`; `from_utf8_lossy` and
  `to_string_lossy` are modelled as the identity (all inputs of interest
  are valid UTF-8).
- Rust `str::len()` (a byte length) is `String.utf8ByteSize`.
- The C++ side of the FFI boundary (`cpp_execute_batch_request_sync`) is an
  explicit oracle parameter of type `String → Bool × Option String`: the
  returned `Bool` is the success flag and the `Option String` models the
  out-parameter `result_ptr` (`none` = null pointer).
- A `DecodedFrame` that is already complete is modelled directly as a
  `BytesFrame`; the `into_complete_frame` error path returns `none` before
  any of the logic embedded here runs.
-/

/-- The subset of `redis_protocol`'s `BytesFrame` shape that the repository's
code inspects: blob strings, simple strings, arrays, and a catch-all for
every other frame constructor (which the code always rejects). -/
inductive BytesFrame where
  | blobString (data : String)
  | simpleString (data : String)
  | array (data : List BytesFrame)
  | other

/-- `RustResponse` from `src/mako/rust-lib/src/lib.rs`: the result string and
success flag handed back by the bridge wrapper. -/
structure RustResponse where
  result : String
  success : Bool
deriving DecidableEq

/-- Rust `str::to_uppercase()` as used on the decoded opcode (the opcodes the
code compares against are all ASCII, where per-character upcasing is exact). -/
def strToUpper (s : String) : String := ⟨s.data.map Char.toUpper⟩

/-- Rust `[u8]::to_ascii_lowercase()` as used on the opcode in `kv_handler`. -/
def strToLower (s : String) : String := ⟨s.data.map Char.toLower⟩

/-- Rust `str::split("\r\n")` on a character list: non-overlapping
left-to-right matches of the two-byte separator, empty pieces kept. -/
def splitCRLF : List Char → List (List Char)
  | [] => [[]]
  | '\r' :: '\n' :: rest => [] :: splitCRLF rest
  | c :: rest =>
    match splitCRLF rest with
    | [] => [[c]]
    | h :: t => (c :: h) :: t

/-- Rust `str::split(sep)` for a one-character separator, empty pieces kept. -/
def splitChar (sep : Char) : List Char → List (List Char)
  | [] => [[]]
  | c :: rest =>
    if c = sep then [] :: splitChar sep rest
    else
      match splitChar sep rest with
      | [] => [[c]]
      | h :: t => (c :: h) :: t

/-- String-level wrapper for `splitCRLF`: Rust `batch_result.split("\r\n")`. -/
def strSplitCRLF (s : String) : List String :=
  (splitCRLF s.data).map fun l => ⟨l⟩

/-- String-level wrapper for `splitChar`: Rust `result.split(',')` and the
colon variant. -/
def strSplitChar (sep : Char) (s : String) : List String :=
  (splitChar sep s.data).map fun l => ⟨l⟩

/-- Extracts the payload of a `BlobString` frame, as the repeated
`if let BytesFrame::BlobString { data, .. }` patterns in the parser do. -/
def blobData : BytesFrame → Option String
  | .blobString data => some data
  | _ => none

/-- The collection loop `for part in &parts[2..] { if let BlobString ... }`
used by the variadic opcodes (LPUSH/RPUSH/SADD/HMGET): keeps the blob-string
elements, in order, and drops everything else. -/
def collectBlobs (parts : List BytesFrame) : List String :=
  parts.filterMap blobData

/-- The opcode dispatch of `parse_resp3_command` (src/mako/rust-lib/src/lib.rs,
the `match &cmd[..]` block): `cmd` is the upper-cased first element, `parts`
the full element list of the top-level array frame.  Each Rust match arm
`"OP" if parts.len() >= n` becomes one branch of the `if` chain; a guard
failure falls through to the final `none` exactly as the Rust match falls
through to `_ => None`. -/
def parse_cmd (cmd : String) (parts : List BytesFrame) :
    Option (String × String × String) :=
  if cmd = "GET" ∧ parts.length ≥ 2 then
    match parts[1]? with
    | some (BytesFrame.blobString key) => some ("get", key, "nil")
    | _ => none
  else if cmd = "SET" ∧ parts.length ≥ 3 then
    match parts[1]?, parts[2]? with
    | some (BytesFrame.blobString key), some (BytesFrame.blobString val) => some ("set", key, val)
    | _, _ => none
  else if cmd = "INCR" ∧ parts.length ≥ 2 then
    match parts[1]? with
    | some (BytesFrame.blobString key) => some ("incr", key, "nil")
    | _ => none
  else if cmd = "DECR" ∧ parts.length ≥ 2 then
    match parts[1]? with
    | some (BytesFrame.blobString key) => some ("decr", key, "nil")
    | _ => none
  else if cmd = "INCRBY" ∧ parts.length ≥ 3 then
    match parts[1]?, parts[2]? with
    | some (BytesFrame.blobString key), some (BytesFrame.blobString val) =>
        some ("incrby", key, val)
    | _, _ => none
  else if cmd = "DECRBY" ∧ parts.length ≥ 3 then
    match parts[1]?, parts[2]? with
    | some (BytesFrame.blobString key), some (BytesFrame.blobString val) =>
        some ("decrby", key, val)
    | _, _ => none
  else if cmd = "LPUSH" ∧ parts.length ≥ 3 then
    match parts[1]? with
    | some (BytesFrame.blobString key) =>
        let values := collectBlobs (parts.drop 2)
        if values.isEmpty then none
        else some ("lpush", key, String.intercalate "," values)
    | _ => none
  else if cmd = "RPUSH" ∧ parts.length ≥ 3 then
    match parts[1]? with
    | some (BytesFrame.blobString key) =>
        let values := collectBlobs (parts.drop 2)
        if values.isEmpty then none
        else some ("rpush", key, String.intercalate "," values)
    | _ => none
  else if cmd = "LPOP" ∧ parts.length ≥ 2 then
    match parts[1]? with
    | some (BytesFrame.blobString key) => some ("lpop", key, "nil")
    | _ => none
  else if cmd = "RPOP" ∧ parts.length ≥ 2 then
    match parts[1]? with
    | some (BytesFrame.blobString key) => some ("rpop", key, "nil")
    | _ => none
  else if cmd = "LLEN" ∧ parts.length ≥ 2 then
    match parts[1]? with
    | some (BytesFrame.blobString key) => some ("llen", key, "nil")
    | _ => none
  else if cmd = "LRANGE" ∧ parts.length ≥ 4 then
    match parts[1]?, parts[2]?, parts[3]? with
    | some (BytesFrame.blobString key), some (BytesFrame.blobString start),
      some (BytesFrame.blobString stop) =>
        some ("lrange", key, start ++ "," ++ stop)
    | _, _, _ => none
  else if cmd = "HSET" ∧ parts.length ≥ 4 then
    match parts[1]?, parts[2]?, parts[3]? with
    | some (BytesFrame.blobString key), some (BytesFrame.blobString field),
      some (BytesFrame.blobString val) =>
        some ("hset", key, field ++ ":" ++ val)
    | _, _, _ => none
  else if cmd = "HGET" ∧ parts.length ≥ 3 then
    match parts[1]?, parts[2]? with
    | some (BytesFrame.blobString key), some (BytesFrame.blobString field) =>
        some ("hget", key, field)
    | _, _ => none
  else if cmd = "HGETALL" ∧ parts.length ≥ 2 then
    match parts[1]? with
    | some (BytesFrame.blobString key) => some ("hgetall", key, "nil")
    | _ => none
  else if cmd = "HDEL" ∧ parts.length ≥ 3 then
    match parts[1]?, parts[2]? with
    | some (BytesFrame.blobString key), some (BytesFrame.blobString field) =>
        some ("hdel", key, field)
    | _, _ => none
  else if cmd = "HEXISTS" ∧ parts.length ≥ 3 then
    match parts[1]?, parts[2]? with
    | some (BytesFrame.blobString key), some (BytesFrame.blobString field) =>
        some ("hexists", key, field)
    | _, _ => none
  else if cmd = "HMGET" ∧ parts.length ≥ 3 then
    match parts[1]? with
    | some (BytesFrame.blobString key) =>
        let fields := collectBlobs (parts.drop 2)
        if fields.isEmpty then none
        else some ("hmget", key, String.intercalate "," fields)
    | _ => none
  else if cmd = "PING" then
    some ("ping", "nil", "nil")
  else if cmd = "DEL" ∧ parts.length ≥ 2 then
    match parts[1]? with
    | some (BytesFrame.blobString key) => some ("del", key, "nil")
    | _ => none
  else if cmd = "EXISTS" ∧ parts.length ≥ 2 then
    match parts[1]? with
    | some (BytesFrame.blobString key) => some ("exists", key, "nil")
    | _ => none
  else if cmd = "EXPIRE" ∧ parts.length ≥ 3 then
    match parts[1]?, parts[2]? with
    | some (BytesFrame.blobString key), some (BytesFrame.blobString ttl) =>
        some ("expire", key, ttl)
    | _, _ => none
  else if cmd = "TTL" ∧ parts.length ≥ 2 then
    match parts[1]? with
    | some (BytesFrame.blobString key) => some ("ttl", key, "nil")
    | _ => none
  else if cmd = "KEYS" ∧ parts.length ≥ 2 then
    match parts[1]? with
    | some (BytesFrame.blobString pat) => some ("keys", pat, "nil")
    | _ => none
  else if cmd = "SADD" ∧ parts.length ≥ 3 then
    match parts[1]? with
    | some (BytesFrame.blobString key) =>
        let values := collectBlobs (parts.drop 2)
        if values.isEmpty then none
        else some ("sadd", key, String.intercalate "," values)
    | _ => none
  else if cmd = "SMEMBERS" ∧ parts.length ≥ 2 then
    match parts[1]? with
    | some (BytesFrame.blobString key) => some ("smembers", key, "nil")
    | _ => none
  else if cmd = "SISMEMBER" ∧ parts.length ≥ 3 then
    match parts[1]?, parts[2]? with
    | some (BytesFrame.blobString key), some (BytesFrame.blobString member) =>
        some ("sismember", key, member)
    | _, _ => none
  else if cmd = "SINTER" ∧ parts.length ≥ 3 then
    match parts[1]?, parts[2]? with
    | some (BytesFrame.blobString key1), some (BytesFrame.blobString key2) =>
        some ("sinter", key1, key2)
    | _, _ => none
  else if cmd = "SDIFF" ∧ parts.length ≥ 3 then
    match parts[1]?, parts[2]? with
    | some (BytesFrame.blobString key1), some (BytesFrame.blobString key2) =>
        some ("sdiff", key1, key2)
    | _, _ => none
  else if cmd = "SCARD" ∧ parts.length ≥ 2 then
    match parts[1]? with
    | some (BytesFrame.blobString key) => some ("scard", key, "nil")
    | _ => none
  else if cmd = "MULTI" then
    some ("multi", "nil", "nil")
  else if cmd = "EXEC" then
    some ("exec", "nil", "nil")
  else if cmd = "DISCARD" then
    some ("discard", "nil", "nil")
  else if cmd = "WATCH" ∧ parts.length ≥ 2 then
    match parts[1]? with
    | some (BytesFrame.blobString key) => some ("watch", key, "nil")
    | _ => none
  else if cmd = "UNWATCH" then
    some ("unwatch", "nil", "nil")
  else
    none

/-- `parse_resp3_command` from `src/mako/rust-lib/src/lib.rs`: only a
top-level array frame whose first element is a blob or simple string is a
command; the opcode is matched upper-cased.  Returns the
`(operation, key, value)` triple handed to the connection driver. -/
def parse_resp3_command (frame : BytesFrame) :
    Option (String × String × String) :=
  match frame with
  | .array parts =>
    match parts.head? with
    | some (BytesFrame.blobString data) | some (BytesFrame.simpleString data) =>
        parse_cmd (strToUpper data) parts
    | _ => none
  | _ => none

/-- The wire encoding of one batch built by `call_cpp_batch_operation`
(src/mako/rust-lib/src/lib.rs): `op\r\nkey\r\nval` per operation, operations
joined by `\r\n`. -/
def batch_encode (operations : List (String × String × String)) : String :=
  String.intercalate "\r\n"
    (operations.map fun t => t.1 ++ "\r\n" ++ t.2.1 ++ "\r\n" ++ t.2.2)

/-- `call_cpp_batch_operation` from `src/mako/rust-lib/src/lib.rs`, with the
C++ call `cpp_execute_batch_request_sync` abstracted as the oracle `cpp`:
the result string is kept only when the call succeeds and the out-pointer is
non-null (`some`), otherwise it is the empty string. -/
def call_cpp_batch_operation (cpp : String → Bool × Option String)
    (operations : List (String × String × String)) : RustResponse :=
  let pair := cpp (batch_encode operations)
  let result :=
    match pair with
    | (true, some s) => s
    | _ => ""
  ⟨result, pair.1⟩

/-- The body of the `for part in parts` loop of
`format_exec_response_from_batch`: an empty piece encodes as the nil bulk
reply, a non-empty piece as a length-prefixed bulk string (byte length). -/
def format_exec_part (part : String) : String :=
  if part.isEmpty then "$-1\r\n"
  else "$" ++ toString part.utf8ByteSize ++ "\r\n" ++ part ++ "\r\n"

/-- `format_exec_response_from_batch` from `src/mako/rust-lib/src/lib.rs`:
the C++ batch result is `\r\n`-separated; an empty overall result encodes as
the empty array `*0\r\n`, otherwise an array header with one element per
piece. -/
def format_exec_response_from_batch (batch_result : String) : String :=
  if batch_result.isEmpty then "*0\r\n"
  else
    let parts := strSplitCRLF batch_result
    "*" ++ toString parts.length ++ "\r\n" ++
      String.join (parts.map format_exec_part)

/-- The bulk-string element encoding `format!("${}\r\n{}\r\n", s.len(), s)`
used throughout `format_response`. -/
def bulk_elem (s : String) : String :=
  "$" ++ toString s.utf8ByteSize ++ "\r\n" ++ s ++ "\r\n"

/-- The per-pair body of the HGETALL branch of `format_response`: a piece
containing a colon contributes a field element and a value element (split at
the first colon); a piece without a colon contributes nothing. -/
def format_hgetall_pair (pair : String) : String :=
  match strSplitChar ':' pair with
  | [] => ""
  | [_] => ""
  | field :: restParts =>
      bulk_elem field ++ bulk_elem (String.intercalate ":" restParts)

/-- The per-value body of the HMGET branch of `format_response`: the literal
`NULL` marker encodes as the nil bulk reply. -/
def format_hmget_value (value : String) : String :=
  if value = "NULL" then "$-1\r\n" else bulk_elem value

/-- `format_response` from `src/mako/rust-lib/src/lib.rs`: the single-command
reply encoder, one branch per operation class, translated clause by clause
from the Rust `if`/`else if` chain (including its fall-through order). -/
def format_response (operation : String) (response : RustResponse) : String :=
  if operation = "ping" then
    "+PONG\r\n"
  else if operation = "multi" ∨ operation = "discard" ∨
      operation = "watch" ∨ operation = "unwatch" then
    if response.success then "+" ++ response.result ++ "\r\n"
    else "-ERR transaction command failed\r\n"
  else if response.result = "QUEUED" then
    "+QUEUED\r\n"
  else if operation = "keys" ∧ response.success then
    if response.result.isEmpty then "*0\r\n"
    else
      let keys := strSplitChar ',' response.result
      "*" ++ toString keys.length ++ "\r\n" ++ String.join (keys.map bulk_elem)
  else if operation = "hgetall" ∧ response.success then
    if response.result.isEmpty then "*0\r\n"
    else
      let pairs := strSplitChar ',' response.result
      "*" ++ toString (pairs.length * 2) ++ "\r\n" ++
        String.join (pairs.map format_hgetall_pair)
  else if operation = "hmget" ∧ response.success then
    if response.result.isEmpty then "*0\r\n"
    else
      let values := strSplitChar ',' response.result
      "*" ++ toString values.length ++ "\r\n" ++
        String.join (values.map format_hmget_value)
  else if operation = "smembers" ∨ operation = "sinter" ∨
      operation = "sdiff" then
    if response.success then
      if response.result.isEmpty then "*0\r\n"
      else
        let members := strSplitChar ',' response.result
        "*" ++ toString members.length ++ "\r\n" ++
          String.join (members.map bulk_elem)
    else "*0\r\n"
  else if operation = "exists" ∨ operation = "expire" ∨ operation = "ttl" ∨
      operation = "llen" ∨ operation = "lpush" ∨ operation = "rpush" ∨
      operation = "incr" ∨ operation = "decr" ∨ operation = "incrby" ∨
      operation = "decrby" ∨ operation = "del" ∨ operation = "hset" ∨
      operation = "hdel" ∨ operation = "hexists" ∨ operation = "sadd" ∨
      operation = "sismember" ∨ operation = "scard" then
    if response.success then ":" ++ response.result ++ "\r\n"
    else "-ERR command failed\r\n"
  else if operation = "invalid" then
    "-ERR invalid command format\r\n"
  else if response.success then
    if response.result.isEmpty then "$-1\r\n"
    else bulk_elem response.result
  else
    "-ERR not found\r\n"

/-- The per-connection mutable state of `handle_client_async`
(src/mako/rust-lib/src/lib.rs): the `in_transaction` flag and the
`pipeline_buffer` of `(operation, key, value)` triples queued since MULTI. -/
structure ConnState where
  in_transaction : Bool
  pipeline_buffer : List (String × String × String)
deriving DecidableEq

/-- One iteration of the per-frame dispatch inside `handle_client_async`
(src/mako/rust-lib/src/lib.rs): takes the parse result of one decoded frame
(`none` when `parse_resp3_command` rejected it), the current connection
state, and the C++ oracle; returns the new connection state and the bytes
written back to the client for this frame.  Each `if`/`else if` arm of the
Rust code is one branch here; the command is processed atomically with
respect to the connection (the driver handles one frame at a time). -/
def processFrame (cpp : String → Bool × Option String) (st : ConnState)
    (parsed : Option (String × String × String)) : ConnState × String :=
  match parsed with
  | none => (st, "-ERR invalid command format\r\n")
  | some (operation, key, value) =>
    if operation = "multi" then
      (⟨true, []⟩, "+OK\r\n")
    else if operation = "exec" then
      if st.pipeline_buffer.isEmpty then
        (⟨false, []⟩, "*0\r\n")
      else
        let response := call_cpp_batch_operation cpp st.pipeline_buffer
        (⟨false, []⟩, format_exec_response_from_batch response.result)
    else if operation = "discard" then
      (⟨false, []⟩, "+OK\r\n")
    else if operation = "watch" then
      let response := call_cpp_batch_operation cpp [(operation, key, value)]
      (st, if response.success then "+OK\r\n" else "-ERR watch failed\r\n")
    else if operation = "unwatch" then
      let response := call_cpp_batch_operation cpp [(operation, key, value)]
      (st, if response.success then "+OK\r\n" else "-ERR unwatch failed\r\n")
    else if st.in_transaction then
      (⟨true, st.pipeline_buffer ++ [(operation, key, value)]⟩, "+QUEUED\r\n")
    else
      let response := call_cpp_batch_operation cpp [(operation, key, value)]
      (st, format_response operation response)

/-- The spec's transaction-state invariant (spec §3, `TransactionState`):
the queue is non-empty only while a transaction is open. -/
def stateOK (st : ConnState) : Prop :=
  st.in_transaction = false → st.pipeline_buffer = []

instance (st : ConnState) : Decidable (stateOK st) := by
  unfold stateOK; infer_instance

/-- A concrete C++ oracle whose every call fails (null out-pointer),
used to instantiate closed statements. -/
def cppStub : String → Bool × Option String := fun _ => (false, none)

/-- A concrete C++ oracle whose every call succeeds and returns "OK",
used to instantiate closed statements. -/
def cppOk : String → Bool × Option String := fun _ => (true, some "OK")

/-- The replies `kv_handler` (src/makocon/src/main.rs) can write on its
`Conn`: `write_bulk`, `write_null`, `write_string`, `write_error`.  The
`makocon` connection type itself lives outside the repository; the handler is
modelled at the granularity of which write method it invokes with which
payload. -/
inductive Reply where
  | bulk (v : String)
  | null
  | simple (s : String)
  | error (s : String)
deriving DecidableEq

/-- The shared `Mutex<HashMap<Vec<u8>, Vec<u8>>>` database of
`src/makocon/src/main.rs`, modelled extensionally as a partial map. -/
def Db : Type := String → Option String

/-- `HashMap::insert` (overwrite semantics). -/
def dbInsert (db : Db) (k v : String) : Db :=
  fun q => if q = k then some v else db q

/-- `HashMap::remove`. -/
def dbRemove (db : Db) (k : String) : Db :=
  fun q => if q = k then none else db q

/-- The freshly created empty database of `main`. -/
def emptyDb : Db := fun _ => none

/-- `kv_handler` from `src/makocon/src/main.rs`: dispatch over the lowercased
opcode with exact arity checks (`parts.len() == 2` / `== 3`), reading and
mutating the `HashMap` database and writing exactly one reply (the
`into_complete_frame` error path, which writes nothing, is handled by the
caller of this model).  The parallel calls into the C++ `KVStore`
(`store.set`/`store.get`) only print to stdout and never touch the reply or
the `HashMap`; they are omitted. -/
def kv_handler (frame : BytesFrame) (db : Db) : Db × Reply :=
  match frame with
  | .array parts =>
    match parts.head? with
    | some (BytesFrame.blobString data) | some (BytesFrame.simpleString data) =>
      let cmd := strToLower data
      if cmd = "get" ∧ parts.length = 2 then
        match parts[1]? with
        | some (BytesFrame.blobString key) =>
          match db key with
          | some val => (db, .bulk val)
          | none => (db, .null)
        | _ => (db, .error "ERR invalid GET args")
      else if cmd = "set" ∧ parts.length = 3 then
        match parts[1]?, parts[2]? with
        | some (BytesFrame.blobString key), some (BytesFrame.blobString val) =>
          (dbInsert db key val, .simple "OK")
        | _, _ => (db, .error "ERR invalid SET args")
      else if cmd = "del" ∧ parts.length = 2 then
        match parts[1]? with
        | some (BytesFrame.blobString key) =>
          (dbRemove db key, .simple "OK")
        | _ => (db, .error "ERR invalid DEL args")
      else
        (db, .error "ERR unsupported command or wrong arg count")
    | _ => (db, .error "ERR invalid command type")
  | _ => (db, .error "ERR expected Array frame")

/-! Theorems. -/

/-- C1 (counterexample): in the Idle state (no MULTI open, empty queue),
processing EXEC does not produce the "EXEC without MULTI" error reply the
claim requires: the code replies with the empty array `*0\r\n`, which is not
an error reply (it does not start with `-`). -/
theorem exec_without_multi_not_an_error :
    processFrame cppStub ⟨false, []⟩
        (parse_resp3_command (.array [.blobString "EXEC"])) =
      (⟨false, []⟩, "*0\r\n") ∧
    ("*0\r\n" : String).data.head? ≠ some '-' ∧
    ("*0\r\n" : String) ≠ "-ERR EXEC without MULTI\r\n" :=
  ⟨by decide, by decide, by decide⟩

/-- C1 (amended): processing EXEC in the Idle state (whose queue is empty)
replies with the empty array `*0\r\n` — the code treats it as an empty
transaction — and leaves the connection Idle with an empty queue; no error
reply is produced and the bridge is not consulted. -/
theorem exec_in_idle_replies_empty_array
    (cpp : String → Bool × Option String) (k v : String) :
    processFrame cpp ⟨false, []⟩ (some ("exec", k, v)) =
      (⟨false, []⟩, "*0\r\n") := rfl

/-- C2 (counterexample): with a transaction open and one queued command,
a second MULTI replies `+OK\r\n` — not the "MULTI calls can not be nested"
error — and clears the queue instead of leaving it intact. -/
theorem nested_multi_clears_queue :
    processFrame cppStub ⟨true, [("set", "a", "1")]⟩
        (parse_resp3_command (.array [.blobString "MULTI"])) =
      (⟨true, []⟩, "+OK\r\n") ∧
    ("+OK\r\n" : String) ≠ "-ERR MULTI calls can not be nested\r\n" ∧
    ([] : List (String × String × String)) ≠ [("set", "a", "1")] :=
  ⟨by decide, by decide, by decide⟩

/-- C2 (amended): processing MULTI while a transaction is already open
replies `+OK\r\n`, keeps the transaction open, and clears the queued
commands — it restarts the transaction, so a subsequent EXEC executes only
the commands queued after this second MULTI. -/
theorem multi_in_open_restarts_transaction
    (cpp : String → Bool × Option String) (st : ConnState) (k v : String)
    (h : st.in_transaction = true) :
    processFrame cpp st (some ("multi", k, v)) = (⟨true, []⟩, "+OK\r\n") := rfl

/-- Witness for `multi_in_open_restarts_transaction` at a concrete open
state with one queued command. -/
theorem multi_in_open_restarts_transaction_witness :
    processFrame cppStub ⟨true, [("set", "a", "1")]⟩
        (some ("multi", "nil", "nil")) = (⟨true, []⟩, "+OK\r\n") :=
  multi_in_open_restarts_transaction cppStub ⟨true, [("set", "a", "1")]⟩
    "nil" "nil" rfl

/-- C3 (counterexample): submitting a one-command transaction batch to a
bridge that reports overall failure yields the reply `*0\r\n`, not the
protocol null array `*-1\r\n` the claim requires. -/
theorem exec_bridge_failure_not_null_array :
    processFrame cppStub ⟨true, [("set", "a", "1")]⟩
        (parse_resp3_command (.array [.blobString "EXEC"])) =
      (⟨false, []⟩, "*0\r\n") ∧
    ("*0\r\n" : String) ≠ "*-1\r\n" :=
  ⟨by decide, by decide⟩

/-- C3 (amended): for every transaction batch submitted at EXEC, if the
bridge call reports failure the client-visible reply is exactly `*0\r\n`
(the empty array: `call_cpp_batch_operation` maps failure to the empty
result string, which `format_exec_response_from_batch` encodes as `*0\r\n`),
regardless of how many operations were in the batch, and no per-operation
results are exposed. -/
theorem exec_bridge_failure_replies_empty_array
    (cpp : String → Bool × Option String) (st : ConnState) (k v : String)
    (hne : st.pipeline_buffer.isEmpty = false)
    (hfail : (cpp (batch_encode st.pipeline_buffer)).1 = false) :
    processFrame cpp st (some ("exec", k, v)) = (⟨false, []⟩, "*0\r\n") := by
  have hres : (call_cpp_batch_operation cpp st.pipeline_buffer).result = "" := by
    unfold call_cpp_batch_operation
    rcases hcp : cpp (batch_encode st.pipeline_buffer) with ⟨b, o⟩
    rw [hcp] at hfail
    simp only at hfail
    subst hfail
    cases o <;> rfl
  show (if st.pipeline_buffer.isEmpty then
          ((⟨false, []⟩ : ConnState), "*0\r\n")
        else
          (⟨false, []⟩, format_exec_response_from_batch
            (call_cpp_batch_operation cpp st.pipeline_buffer).result)) =
    (⟨false, []⟩, "*0\r\n")
  rw [hne, hres]
  rfl

/-- Witness for `exec_bridge_failure_replies_empty_array` at a concrete
one-command batch and the always-failing bridge oracle. -/
theorem exec_bridge_failure_replies_empty_array_witness :
    processFrame cppStub ⟨true, [("set", "a", "1")]⟩
        (some ("exec", "nil", "nil")) = (⟨false, []⟩, "*0\r\n") :=
  exec_bridge_failure_replies_empty_array cppStub ⟨true, [("set", "a", "1")]⟩
    "nil" "nil" rfl rfl

/-- C4 (counterexample): with a transaction open, PING is appended to the
queue and answered `+QUEUED\r\n`, not executed immediately with
`+PONG\r\n` as the claim requires. -/
theorem ping_queued_inside_transaction :
    processFrame cppStub ⟨true, []⟩
        (parse_resp3_command (.array [.blobString "PING"])) =
      (⟨true, [("ping", "nil", "nil")]⟩, "+QUEUED\r\n") ∧
    ("+QUEUED\r\n" : String) ≠ "+PONG\r\n" :=
  ⟨by decide, by decide⟩

/-- C4 (amended): PING outside a transaction is executed immediately and
replied to with `+PONG\r\n` leaving the state unchanged; PING while a
transaction is open is treated like any key-addressed command — appended
to the queue and answered `+QUEUED\r\n`. -/
theorem ping_immediate_only_when_idle
    (cpp : String → Bool × Option String) (st : ConnState) (k v : String) :
    (st.in_transaction = false →
      processFrame cpp st (some ("ping", k, v)) = (st, "+PONG\r\n")) ∧
    (st.in_transaction = true →
      processFrame cpp st (some ("ping", k, v)) =
        (⟨true, st.pipeline_buffer ++ [("ping", k, v)]⟩, "+QUEUED\r\n")) := by
  obtain ⟨b, buf⟩ := st
  cases b
  · exact ⟨fun _ => rfl, fun h => Bool.noConfusion h⟩
  · exact ⟨fun h => Bool.noConfusion h, fun _ => rfl⟩

/-- Witness for `ping_immediate_only_when_idle` at a concrete Idle state. -/
theorem ping_immediate_only_when_idle_witness :
    processFrame cppStub ⟨false, []⟩ (some ("ping", "nil", "nil")) =
      (⟨false, []⟩, "+PONG\r\n") :=
  (ping_immediate_only_when_idle cppStub ⟨false, []⟩ "nil" "nil").1 rfl

/-- C5: `SET k v` outside a transaction replies OK and stores `v` under `k`
in the database; an immediately following `GET k` then returns the bulk
string `v`, and `GET` of a key that was never set returns the nil reply. -/
theorem set_then_get_roundtrip (k v : String) (db : Db) (h : db k = none) :
    kv_handler (.array [.blobString "SET", .blobString k, .blobString v]) db =
      (dbInsert db k v, .simple "OK") ∧
    (kv_handler (.array [.blobString "GET", .blobString k])
        (dbInsert db k v)).2 = .bulk v ∧
    (kv_handler (.array [.blobString "GET", .blobString k]) db).2 =
      .null := by
  have hget : ∀ d : Db,
      kv_handler (.array [.blobString "GET", .blobString k]) d =
        (match d k with
         | some val => (d, Reply.bulk val)
         | none => (d, Reply.null)) := fun d => rfl
  refine ⟨rfl, ?_, ?_⟩
  · rw [hget]
    have hk : dbInsert db k v k = some v := by simp [dbInsert]
    rw [hk]
  · rw [hget, h]

/-- Witness for `set_then_get_roundtrip`: storing `"1"` under `"a"` in the
empty database and reading it back. -/
theorem set_then_get_roundtrip_witness :
    (kv_handler (.array [.blobString "GET", .blobString "a"])
        (dbInsert emptyDb "a" "1")).2 = .bulk "1" :=
  (set_then_get_roundtrip "a" "1" emptyDb rfl).2.1

/-- C6 (counterexample): an HSET frame with one extra argument after the
value (five elements instead of four) is accepted by the parser — it yields
`some ("hset", "k", "f:v")` rather than the rejection the claim requires. -/
theorem hset_extra_argument_accepted :
    parse_resp3_command (.array [.blobString "HSET", .blobString "k",
        .blobString "f", .blobString "v", .blobString "x"]) =
      some ("hset", "k", "f:v") ∧
    (some ("hset", "k", "f:v") : Option (String × String × String)) ≠
      none :=
  ⟨by decide, by decide⟩

/-- C6 (amended): the parser accepts an HSET command when it carries at
least a field and a value after the key (a minimum-arity check,
`parts.len() >= 4`): frames with fewer arguments are rejected, while extra
arguments beyond the value are silently ignored, not rejected. -/
theorem hset_minimum_arity (k f v : String) (extra : BytesFrame) :
    parse_resp3_command (.array [.blobString "HSET", .blobString k,
        .blobString f, .blobString v]) = some ("hset", k, f ++ ":" ++ v) ∧
    parse_resp3_command (.array [.blobString "HSET", .blobString k,
        .blobString f, .blobString v, extra]) =
      some ("hset", k, f ++ ":" ++ v) ∧
    parse_resp3_command (.array [.blobString "HSET", .blobString k,
        .blobString f]) = none ∧
    parse_resp3_command (.array [.blobString "HSET", .blobString k]) =
      none :=
  ⟨rfl, rfl, rfl, rfl⟩

/-- C7 (counterexample): processing DISCARD in the Idle state replies
`+OK\r\n`, which is not an error reply (it does not start with `-`),
contradicting the claim that DISCARD while Idle yields an error. -/
theorem discard_in_idle_not_an_error :
    processFrame cppStub ⟨false, []⟩
        (parse_resp3_command (.array [.blobString "DISCARD"])) =
      (⟨false, []⟩, "+OK\r\n") ∧
    ("+OK\r\n" : String).data.head? ≠ some '-' :=
  ⟨by decide, by decide⟩

/-- C7 (amended): processing DISCARD in any state clears the queued
commands, transitions the connection to Idle, and replies `+OK\r\n` — in the
Open state exactly as the claim says (so a later EXEC after a fresh MULTI
cannot re-execute the discarded commands, the queue being empty), but in the
Idle state it also replies `+OK\r\n` rather than an error. -/
theorem discard_clears_and_replies_ok
    (cpp : String → Bool × Option String) (st : ConnState) (k v : String) :
    processFrame cpp st (some ("discard", k, v)) =
      (⟨false, []⟩, "+OK\r\n") := rfl

/-- C8: the transaction-state invariant. Starting from the initial state the
queue is non-empty only when the transaction flag is set; every processed
command preserves this; and EXEC and DISCARD always leave the flag cleared
and the queue empty together.  Commands are processed atomically with
respect to the connection (one frame at a time in `handle_client_async`), so
no partially-cleared state is observable by later commands. -/
theorem transaction_queue_invariant
    (cpp : String → Bool × Option String) (st : ConnState)
    (parsed : Option (String × String × String)) (h : stateOK st) :
    stateOK (processFrame cpp st parsed).1 ∧
    (∀ k v, (processFrame cpp st (some ("exec", k, v))).1 = ⟨false, []⟩) ∧
    (∀ k v, (processFrame cpp st (some ("discard", k, v))).1 =
      ⟨false, []⟩) := by
  refine ⟨?_, ?_, ?_⟩
  · rcases parsed with _ | ⟨op, kk, vv⟩
    · exact h
    · simp only [processFrame, stateOK] at h ⊢
      split_ifs <;> simp_all
  · intro k v
    by_cases hb : st.pipeline_buffer.isEmpty <;>
      simp [processFrame, hb]
  · intro k v
    rfl

/-- Witness for `transaction_queue_invariant`: one step from the initial
state on a GET command preserves the invariant. -/
theorem transaction_queue_invariant_witness :
    stateOK (processFrame cppStub ⟨false, []⟩ (some ("get", "k", "nil"))).1 :=
  (transaction_queue_invariant cppStub ⟨false, []⟩ (some ("get", "k", "nil"))
    (by decide)).1

/-- C9: when the storage boundary reports a value as absent — the empty
result string over the bridge — the reply encoder emits the nil reply
`$-1\r\n` and never the zero-length bulk string `$0\r\n\r\n`, both for a
single-command bulk reply (GET) and for an element of an EXEC reply
array. -/
theorem absent_sentinel_encodes_as_nil :
    (∀ response : RustResponse, response.success = true →
      response.result = "" →
      format_response "get" response = "$-1\r\n" ∧
      format_response "get" response ≠ "$0\r\n\r\n") ∧
    format_exec_part "" = "$-1\r\n" ∧
    format_exec_part "" ≠ "$0\r\n\r\n" := by
  refine ⟨?_, rfl, by decide⟩
  intro response hs hr
  have hresp : response = ⟨"", true⟩ := by
    cases response
    simp_all
  subst hresp
  exact ⟨rfl, by decide⟩

/-- Witness for `absent_sentinel_encodes_as_nil`: a successful GET whose
result is the absent sentinel encodes as the nil reply. -/
theorem absent_sentinel_encodes_as_nil_witness :
    format_response "get" ⟨"", true⟩ = "$-1\r\n" :=
  (absent_sentinel_encodes_as_nil.1 ⟨"", true⟩ rfl rfl).1

/-- C10: the parser joins the collected member values of variadic commands
with a comma, so the two distinct well-formed frames `SADD k "a,b"` (one
member containing a comma) and `SADD k a b` (two members) parse to the
identical `(operation, key, value)` triple and are indistinguishable past
the parser. -/
theorem sadd_comma_ambiguity (k : String) :
    parse_resp3_command (.array [.blobString "SADD", .blobString k,
        .blobString "a,b"]) =
      parse_resp3_command (.array [.blobString "SADD", .blobString k,
        .blobString "a", .blobString "b"]) ∧
    parse_resp3_command (.array [.blobString "SADD", .blobString k,
        .blobString "a,b"]) = some ("sadd", k, "a,b") ∧
    (BytesFrame.array [.blobString "SADD", .blobString k,
        .blobString "a,b"]) ≠
      (BytesFrame.array [.blobString "SADD", .blobString k,
        .blobString "a", .blobString "b"]) := by
  refine ⟨rfl, rfl, ?_⟩
  intro hcontra
  simp at hcontra
